import Mathlib

/-!
Shallow embedding of the widget-stream scheduling machinery of the `cnx`
status-bar engine, together with proofs checking the natural-language
specification against the code.

Conventions of the embedding:
* machine durations and instants are modelled as natural numbers of
  nanoseconds; Rust `Duration / u32` is floor division on total nanoseconds,
  which agrees with `Nat` division;
* `f64` second values appearing in the progress-bar split computation are
  modelled as exact rationals (the spec states the computation over real
  numbers; the concrete inputs of interest are exactly representable);
* `Poll` mirrors `std::task::Poll`; a stream's `poll_next` is a pure function
  of its state plus the inputs the real poll reads from the environment
  (status-query results, whether the tokio interval has elapsed, the current
  instant);
* spawning of blocking workers is observed by returning the number of workers
  spawned during the poll.
-/

/-- `std::task::Poll`. -/
inductive Poll (α : Type) where
  | ready : α → Poll α
  | pending : Poll α
deriving DecidableEq

/-- `Poll::is_ready`. -/
def Poll.isReady {α : Type} : Poll α → Bool
  | Poll.ready _ => true
  | Poll.pending => false

/-! ## ClockStream (src/cnx/src/clock_stream.rs)

State of a `ClockStream`: the duration-recomputation function and the
underlying `tokio::time::Interval`, of which only the next deadline matters
to the claims.  `get_duration` reads the wall clock, so it is modelled as a
function of the current instant. -/

structure ClockStreamState where
  get_duration : Nat → Nat
  deadline : Nat

/-- `ClockStream::poll_next` (clock_stream.rs lines 33-40): poll the interval
(ready exactly when `now` has reached the deadline), and if ready reset the
interval's deadline to `Instant::now() + duration` with the duration function
re-evaluated at that instant. -/
def ClockStream.pollNext (s : ClockStreamState) (now : Nat) :
    ClockStreamState × Poll (Option Nat) :=
  let ret : Poll (Option Nat) :=
    if s.deadline ≤ now then Poll.ready (some s.deadline) else Poll.pending
  if ret.isReady then
    ({ s with deadline := now + s.get_duration now }, ret)
  else
    (s, ret)

/-! ## Clock precision duration functions (src/cnx/src/widgets/clock.rs)

A local wall-clock time, as read through chrono's `Timelike`; the bounds are
chrono's (leap-second representations with `nanosecond ≥ 10^9` are outside
the model). -/

structure LocalTime where
  hour : Nat
  minute : Nat
  second : Nat
  nanosecond : Nat
  hour_lt : hour < 24
  minute_lt : minute < 60
  second_lt : second < 60
  nanosecond_lt : nanosecond < 1000000000

/-- The duration closure of `Clock<Days>::into_stream` (clock.rs lines 60-63):
`Duration::from_secs(60 * (60 * (24 - hour) + 60 - minute))`, in nanoseconds. -/
def daysDuration (t : LocalTime) : Nat :=
  1000000000 * (60 * (60 * (24 - t.hour) + (60 - t.minute)))

/-- The duration closure of `Clock<Hours>::into_stream` (clock.rs lines 71-74):
`Duration::from_secs(60 * (60 - minute))`, in nanoseconds. -/
def hoursDuration (t : LocalTime) : Nat :=
  1000000000 * (60 * (60 - t.minute))

/-- The duration closure of `Clock<Minutes>::into_stream` (clock.rs line 82):
`Duration::from_secs(60 - second)`, in nanoseconds. -/
def minutesDuration (t : LocalTime) : Nat :=
  1000000000 * (60 - t.second)

/-- The duration closure of `Clock<Seconds>::into_stream` (clock.rs lines 90-92):
`Duration::from_nanos(1_000_000_000 - nanosecond % 1_000_000_000)`. -/
def secondsDuration (t : LocalTime) : Nat :=
  1000000000 - t.nanosecond % 1000000000

/-- Nanoseconds elapsed since the start of the current day. -/
def nanoOfDay (t : LocalTime) : Nat :=
  1000000000 * (3600 * t.hour + 60 * t.minute + t.second) + t.nanosecond

/-- Exact remaining time from `t` to the next day boundary, in nanoseconds. -/
def remainingToNextDay (t : LocalTime) : Nat :=
  1000000000 * 86400 - nanoOfDay t

/-- Exact remaining time from `t` to the next hour boundary, in nanoseconds. -/
def remainingToNextHour (t : LocalTime) : Nat :=
  1000000000 * 3600 - (1000000000 * (60 * t.minute + t.second) + t.nanosecond)

/-- Exact remaining time from `t` to the next minute boundary, in nanoseconds. -/
def remainingToNextMinute (t : LocalTime) : Nat :=
  1000000000 * 60 - (1000000000 * t.second + t.nanosecond)

/-- Exact remaining time from `t` to the next second boundary, in nanoseconds. -/
def remainingToNextSecond (t : LocalTime) : Nat :=
  1000000000 - t.nanosecond

/-! ## Text and attributes (cnx::text)

Only the pieces the MPD widget manipulates are modelled: background color and
the two padding sides it strips for the two-part highlighted frame. -/

inductive Color where
  | red
  | white
deriving DecidableEq

structure Attributes where
  bg : Option Color
  pad_left : Bool
  pad_right : Bool
deriving DecidableEq

/-- `Attributes::strip_right_padding`. -/
def Attributes.strip_right_padding (a : Attributes) : Attributes :=
  { a with pad_right := false }

/-- `Attributes::strip_left_padding`. -/
def Attributes.strip_left_padding (a : Attributes) : Attributes :=
  { a with pad_left := false }

/-- `Attributes::with_bg`. -/
def Attributes.with_bg (a : Attributes) (c : Option Color) : Attributes :=
  { a with bg := c }

/-- `cnx::text::Text`; the text is a list of Unicode scalar values, matching
Rust's `str::chars` iteration. -/
structure Text where
  attr : Attributes
  text : List Char
  stretch : Bool
  markup : Bool
deriving DecidableEq

/-! ## MPD widget (src/cnx-contrib/src/widgets/mpd.rs)

`mpd::Status` restricted to the two fields the widget reads; durations are
nanoseconds. -/

structure MpdStatus where
  elapsed : Option Nat
  duration : Option Nat
deriving DecidableEq

/-- `Duration::as_secs_f64` on a nanosecond count, as an exact rational. -/
def asSecs (n : Nat) : ℚ :=
  (n : ℚ) / 1000000000

/-- The mutable state of the `Mpd` widget that `tick` reads and writes.
`last_sync` is kept implicitly: `tick` sets it to the current instant and the
only use inside `tick` is the difference `Instant::now() - last_sync`, passed
here as the rational number of seconds `delta` elapsed between those two
clock reads within the same synchronous call. -/
structure MpdState where
  attr : Attributes
  progress_bar : Bool
  song_length : Option Nat
  song_elapsed : Option Nat
  last_string : List Char
deriving DecidableEq

/-- `Mpd::tick` (mpd.rs lines 123-164).  Inputs: the results of the two
`status()` calls on the non-idle connection (the first supplies `elapsed`,
the second `duration`), the output of the `render` function, and `delta` (see
`MpdState`).  Returns the updated state and the produced frame batch. -/
def Mpd.tick (m : MpdState) (st1 st2 : Except String MpdStatus)
    (render : Option (List Char)) (delta : ℚ) :
    MpdState × Except String (List Text) :=
  match st1 with
  | Except.error e => (m, Except.error e)
  | Except.ok s1 =>
    let m := { m with song_elapsed := s1.elapsed }
    match st2 with
    | Except.error e => (m, Except.error e)
    | Except.ok s2 =>
      let m := { m with song_length := s2.duration }
      let text := render.getD []
      let length := text.length
      let m := { m with last_string := text }
      if m.progress_bar && m.song_elapsed.isSome && m.song_length.isSome then
        let char_index : Nat :=
          (round ((asSecs (m.song_elapsed.getD 0) + delta)
            / asSecs (m.song_length.getD 0) * (length : ℚ))).toNat
        (m, Except.ok
          [ { attr := (m.attr.strip_right_padding).with_bg (some Color.red),
              text := text.take char_index, stretch := false, markup := false },
            { attr := m.attr.strip_left_padding,
              text := text.drop char_index, stretch := false, markup := false } ])
      else
        (m, Except.ok
          [ { attr := m.attr, text := text, stretch := false, markup := false } ])

/-- The fields of a freshly constructed `Mpd` that the claims inspect. -/
structure MpdNew where
  highlight_conn : Option Unit
  progress_bar : Bool
deriving DecidableEq

/-- `Mpd::new` (mpd.rs lines 85-121).  `c1`, `c2`, `c3` are the outcomes of
the three `Client::connect` attempts (for `conn`, `noidle_conn` and the
highlight connection, in the order the struct literal evaluates them); the
third is only attempted when `progress_bar` holds, via
`progress_bar.then(..).ok_or(anyhow!("Failed to establish MPD connection"))??`. -/
def Mpd.new (c1 c2 c3 : Except String Unit) (pb : Bool) : Except String MpdNew := do
  let _ ← c1
  let _ ← c2
  let opt : Option (Except String Unit) := if pb then some c3 else none
  let step ← match opt with
    | some x => Except.ok x
    | none => Except.error "Failed to establish MPD connection"
  let hc ← step
  Except.ok { highlight_conn := some hc, progress_bar := pb }

/-! ## Blocking-Wait Bridge streams (mpd.rs lines 196-286)

A spawned worker's `JoinHandle`, abstracted to whether the blocking wait has
returned (`is_finished`). -/

inductive HandleState where
  | running
  | finished
deriving DecidableEq

/-- `MpdStream::poll_next` (mpd.rs lines 263-285), as a function of the
`handle` field (the only state it touches).  Returns the new handle, the poll
result, and the number of blocking workers spawned during the call. -/
def MpdStream.pollNext (handle : Option HandleState) :
    Option HandleState × Poll (Option (Except String Unit)) × Nat :=
  match handle with
  | some HandleState.finished =>
      (none, Poll.ready (some (Except.ok ())), 0)
  | some HandleState.running =>
      (some HandleState.running, Poll.pending, 0)
  | none =>
      (some HandleState.running, Poll.pending, 1)

/-- State of a `HighlightStream` (mpd.rs lines 196-205): the character count
of the shared `last_string`, the current tokio interval's period in
nanoseconds, the cached song durations, the worker handle and the shared
stale flag. -/
structure HighlightState where
  lastStringLen : Nat
  intervalDur : Nat
  songLength : Option Nat
  songElapsed : Option Nat
  handle : Option HandleState
  stale : Bool
deriving DecidableEq

/-- Poll result of the trailing `self.interval.poll_tick(cx).map(|_| Some(Ok(())))`. -/
def intervalPoll (tickReady : Bool) : Poll (Option (Except String Unit)) :=
  if tickReady then Poll.ready (some (Except.ok ())) else Poll.pending

/-- `HighlightStream::poll_next` (mpd.rs lines 210-251).  Inputs: the result
of `status()` on the non-idle connection (read only when the stale flag is
set) and whether the interval has elapsed.  Returns the new state, the poll
result, and the number of blocking workers spawned.  The `?` operators on
`status()` and `try_into()` (count must fit `u32`) early-return
`Poll::Ready(Some(Err(..)))`. -/
def HighlightStream.pollNext (s0 : HighlightState)
    (statusRes : Except String MpdStatus) (tickReady : Bool) :
    HighlightState × Poll (Option (Except String Unit)) × Nat :=
  let spawned := if s0.handle = none then 1 else 0
  let s1 := if s0.handle = none then { s0 with handle := some HandleState.running } else s0
  if s1.stale then
    let s2 := { s1 with stale := false }
    match statusRes with
    | Except.error e => (s2, Poll.ready (some (Except.error e)), spawned)
    | Except.ok st =>
      let s3 := { s2 with songLength := st.duration, songElapsed := st.elapsed }
      if st.duration.isSome && st.elapsed.isSome then
        if s3.lastStringLen < 2 ^ 32 then
          if 0 < s3.lastStringLen then
            ({ s3 with intervalDur := st.duration.getD 0 / s3.lastStringLen },
              intervalPoll tickReady, spawned)
          else
            (s3, intervalPoll tickReady, spawned)
        else
          (s3, Poll.ready (some (Except.error "out of range integral type conversion attempted")),
            spawned)
      else
        (s3, intervalPoll tickReady, spawned)
  else
    (s1, intervalPoll tickReady, spawned)

/-! ## Worker closure of the HighlightStream bridge (mpd.rs lines 218-225)

The closure performs, in order: the blocking `wait` call, the guarded write
setting the shared stale flag (skipped only when the mutex is poisoned), and
the single `waker.wake()` call. -/

inductive WorkerAction where
  | waitReturn
  | setStale
  | wake
deriving DecidableEq

/-- Action sequence executed by the `HighlightStream` worker closure;
`lockOk` is whether `stale.lock()` returned `Ok` (false only under mutex
poisoning). -/
def highlightWorkerTrace (lockOk : Bool) : List WorkerAction :=
  [WorkerAction.waitReturn]
    ++ (if lockOk then [WorkerAction.setStale] else [])
    ++ [WorkerAction.wake]

/-- Action sequence executed by the `MpdStream` worker closure
(mpd.rs lines 278-282): the blocking `wait`, then one `waker.wake()`. -/
def mpdWorkerTrace : List WorkerAction :=
  [WorkerAction.waitReturn, WorkerAction.wake]

/-- The value of the stale flag after running a list of worker actions from
flag value `b`. -/
def runStaleWrites (acts : List WorkerAction) (b : Bool) : Bool :=
  acts.foldl (fun st a => if a = WorkerAction.setStale then true else st) b

/-! ## Check-then-clear race on the stale flag (mpd.rs lines 227-233)

The poller reads the flag and clears it under two separate lock
acquisitions, then re-queries authoritative status; the worker's single
write of `true` can interleave anywhere.  The simulation records whether the
authoritative re-query (`resync`) executes after the worker's write: in that
case the re-query reads post-event state, so the staleness is handled by the
current poll even if the flag write itself was overwritten by the clear. -/

inductive SyncAction where
  | setStale
  | checkStale
  | clearStale
  | resync
deriving DecidableEq

structure SimState where
  stale : Bool
  setDone : Bool
  observed : Bool
deriving DecidableEq

def execSync (st : SimState) (a : SyncAction) : SimState :=
  match a with
  | SyncAction.setStale => { st with stale := true, setDone := true }
  | SyncAction.checkStale => st
  | SyncAction.clearStale => { st with stale := false }
  | SyncAction.resync => { st with observed := st.observed || st.setDone }

def runSync (acts : List SyncAction) (st : SimState) : SimState :=
  acts.foldl execSync st

/-- The interleaved execution: the poller runs `checkStale`, and — only when
the check read `true` — `clearStale` then `resync` (mpd.rs lines 228-233);
the worker's one `setStale` lands at `slot` 0 (before the check), 1 (between
check and clear), 2 (between clear and resync) or 3 (after the poll).
`checkVal` is the flag value the check reads, determined by the initial flag
`s0` and whether the set landed before the check
(`raceTrace_check_reads_flag` validates this). -/
def raceTrace (s0 : Bool) (slot : Fin 4) : List SyncAction :=
  let checkVal := decide (slot.val = 0) || s0
  (if slot.val = 0 then [SyncAction.setStale] else [])
    ++ [SyncAction.checkStale]
    ++ (if slot.val = 1 then [SyncAction.setStale] else [])
    ++ (if checkVal then [SyncAction.clearStale] else [])
    ++ (if slot.val = 2 then [SyncAction.setStale] else [])
    ++ (if checkVal then [SyncAction.resync] else [])
    ++ (if slot.val = 3 then [SyncAction.setStale] else [])

/-- The prefix of `raceTrace` strictly before the `checkStale` action. -/
def raceTracePrefix (slot : Fin 4) : List SyncAction :=
  if slot.val = 0 then [SyncAction.setStale] else []

/-! ## Widget streams built by mapping a tick over trigger streams

`Inotify::into_stream` (inotify.rs lines 42-51) is
`once(tick()) ++ event_stream.map(|_| tick())`; `Mpd::into_stream`
(mpd.rs lines 168-193) is `stream_map.map(|_| tick())`.  A stream is modelled
as the sequence of its yielded items: `none` means the stream has
terminated at that yield index.  `futures`/`tokio_stream` `map` yields
`none` exactly when the inner stream does, so an `Err` item is an ordinary
item and never ends the sequence.  `ticks n` is the result of the n-th call
of the widget's `tick`. -/

def inotifyStream (ticks : Nat → Except String (List Text))
    (events : Nat → Option Unit) : Nat → Option (Except String (List Text)) :=
  fun n =>
    match n with
    | 0 => some (ticks 0)
    | Nat.succ k => (events k).map (fun _ => ticks (Nat.succ k))

def mappedWidgetStream (ticks : Nat → Except String (List Text))
    (triggers : Nat → Option Unit) : Nat → Option (Except String (List Text)) :=
  fun n => (triggers n).map (fun _ => ticks n)

/-! ## Concrete fixtures used by witnesses and counterexamples -/

/-- A `HighlightStream` state right after its first (and only) spawned worker
has completed its blocking wait: the worker set the stale flag and the
`JoinHandle`, which the stream never clears, reports finished. -/
def hsCompleted : HighlightState :=
  { lastStringLen := 4, intervalDur := 1000000000, songLength := none,
    songElapsed := none, handle := some HandleState.finished, stale := true }

/-- A `HighlightStream` state with the worker still blocked and no staleness. -/
def hsRunning : HighlightState :=
  { lastStringLen := 4, intervalDur := 1000000000,
    songLength := some 200000000000, songElapsed := some 5000000000,
    handle := some HandleState.running, stale := false }

/-- A stale `HighlightStream` state whose shared rendered string is empty. -/
def hsEmptyString : HighlightState :=
  { lastStringLen := 0, intervalDur := 7, songLength := none,
    songElapsed := none, handle := some HandleState.running, stale := true }

/-- A stale `HighlightStream` state with a 20-character rendered string. -/
def hsStale : HighlightState :=
  { lastStringLen := 20, intervalDur := 123, songLength := none,
    songElapsed := none, handle := some HandleState.running, stale := true }

/-- A status answer with a 200 s track, 5 s elapsed. -/
def statusPlaying : MpdStatus :=
  { elapsed := some 5000000000, duration := some 200000000000 }

def attrW : Attributes := { bg := none, pad_left := true, pad_right := true }

/-- An `Mpd` widget state with the progress bar enabled. -/
def mpdW : MpdState :=
  { attr := attrW, progress_bar := true, song_length := none,
    song_elapsed := none, last_string := [] }

/-- First `status()` answer of the fixture tick: elapsed 100 s. -/
def statusElapsedW : MpdStatus := { elapsed := some 100000000000, duration := none }

/-- Second `status()` answer of the fixture tick: duration 200 s. -/
def statusDurationW : MpdStatus := { elapsed := none, duration := some 200000000000 }

/-- A 20-character rendered string. -/
def textW : List Char := "abcdefghijklmnopqrst".toList

def clockW : ClockStreamState := { get_duration := fun _ => 5, deadline := 0 }

def frameW : Text := { attr := attrW, text := "ok".toList, stretch := false, markup := true }

def ticksW : Nat → Except String (List Text) :=
  fun n => if n = 0 then Except.error "boom" else Except.ok [frameW]

def eventsW : Nat → Option Unit := fun _ => some ()

/-- Local time 23:59:00.0. -/
def t2359 : LocalTime :=
  { hour := 23, minute := 59, second := 0, nanosecond := 0,
    hour_lt := by decide, minute_lt := by decide, second_lt := by decide,
    nanosecond_lt := by decide }

/-- Local time 00:59:30.0. -/
def t0593 : LocalTime :=
  { hour := 0, minute := 59, second := 30, nanosecond := 0,
    hour_lt := by decide, minute_lt := by decide, second_lt := by decide,
    nanosecond_lt := by decide }

/-- Local time 00:00:59.5. -/
def t00595 : LocalTime :=
  { hour := 0, minute := 0, second := 59, nanosecond := 500000000,
    hour_lt := by decide, minute_lt := by decide, second_lt := by decide,
    nanosecond_lt := by decide }

/-! ## Theorems -/

/-- C3: on every poll of `ClockStream::poll_next` that returns `Ready`, the
stream re-evaluates `get_duration` at the current instant and resets the
interval's deadline to exactly `now + get_duration()` — relative to now, not
to the (possibly missed) previous deadline, so no drift accumulates. -/
theorem clock_stream_rearms_from_now (s : ClockStreamState) (now : Nat)
    (h : (ClockStream.pollNext s now).2.isReady = true) :
    (ClockStream.pollNext s now).1.deadline = now + s.get_duration now := by
  unfold ClockStream.pollNext at h ⊢
  by_cases hd : s.deadline ≤ now
  · simp [hd, Poll.isReady]
  · simp [hd, Poll.isReady] at h

/-- Witness for `clock_stream_rearms_from_now`: a ready poll at instant 3
with constant duration 5 re-arms the deadline to 8. -/
theorem clock_stream_rearms_from_now_witness :
    (ClockStream.pollNext clockW 3).2.isReady = true ∧
      (ClockStream.pollNext clockW 3).1.deadline = 3 + clockW.get_duration 3 :=
  ⟨rfl, clock_stream_rearms_from_now clockW 3 rfl⟩

/-- C4 counterexample: no precision variant except `Seconds` supplies exactly
the remaining time to its boundary.  At 23:59:00 the `Days` function yields
3660 s although 60 s remain in the day; at 00:59:30 the `Hours` function
yields 60 s although 30 s remain in the hour; at 00:00:59.5 the `Minutes`
function yields 1 s although 0.5 s remain in the minute. -/
theorem clock_duration_not_exact_remaining :
    daysDuration t2359 ≠ remainingToNextDay t2359 ∧
    hoursDuration t0593 ≠ remainingToNextHour t0593 ∧
    minutesDuration t00595 ≠ remainingToNextMinute t00595 := by
  refine ⟨?_, ?_, ?_⟩ <;> decide

/-- C4 (amended): for every local time, `Seconds` supplies exactly the
remaining time to the next second boundary; `Minutes` exceeds the exact
remainder to the next minute by the sub-second part; `Hours` exceeds the
exact remainder to the next hour by the seconds and sub-second part; `Days`
exceeds the exact remainder to the next day by one hour plus the seconds and
sub-second part. -/
theorem clock_duration_formulas (t : LocalTime) :
    secondsDuration t = remainingToNextSecond t ∧
    minutesDuration t = remainingToNextMinute t + t.nanosecond ∧
    hoursDuration t = remainingToNextHour t + (1000000000 * t.second + t.nanosecond) ∧
    daysDuration t = remainingToNextDay t
      + (1000000000 * 3600 + 1000000000 * t.second + t.nanosecond) := by
  obtain ⟨h, m, s, ns, hh, hm, hs, hns⟩ := t
  simp only [secondsDuration, remainingToNextSecond, minutesDuration,
    remainingToNextMinute, hoursDuration, remainingToNextHour, daysDuration,
    remainingToNextDay, nanoOfDay]
  refine ⟨?_, ?_, ?_, ?_⟩ <;> omega

/-- Internal consistency of the race trace: the flag value at the moment the
poller's check executes is exactly the `checkVal` used to build the trace. -/
theorem raceTrace_check_reads_flag (s0 : Bool) (slot : Fin 4) :
    (runSync (raceTracePrefix slot) ({ stale := s0, setDone := false, observed := false } : SimState)).stale
      = (decide (slot.val = 0) || s0) := by
  revert s0 slot
  decide

/-- C9: a set of the shared stale flag is never lost between the poller's
check and clear: for every initial flag value and every interleaving slot of
the worker's set relative to the poller's check / clear / resync sequence,
either the current poll's authoritative resync executes after the set (so it
reads post-event state), or the flag is still true when the poll ends (so
the next poll resynchronizes). -/
theorem stale_set_never_lost (s0 : Bool) (slot : Fin 4) :
    (runSync (raceTrace s0 slot)
        ({ stale := s0, setDone := false, observed := false } : SimState)).observed = true ∨
      (runSync (raceTrace s0 slot)
        ({ stale := s0, setDone := false, observed := false } : SimState)).stale = true := by
  revert s0 slot
  decide

/-- C1 (divergence): `HighlightStream` never clears its worker handle, so the
poll after the worker's completion does not return the bridge to Idle and
spawns no fresh worker — the blocking wait is never re-armed.  Evaluated at a
state whose first worker has just completed (`hsCompleted`): the poll leaves
the handle occupied and spawns zero workers.  (`MpdStream`, by contrast, does
clear its handle on observing completion.) -/
theorem highlight_bridge_no_respawn_after_completion :
    (HighlightStream.pollNext hsCompleted (Except.ok statusPlaying) false).1.handle
        = some HandleState.finished ∧
      (HighlightStream.pollNext hsCompleted (Except.ok statusPlaying) false).2.2 = 0 :=
  ⟨rfl, rfl⟩

/-- C2 counterexample: a `HighlightStream` poll performed while its spawned
worker is still blocked is not necessarily "not ready": when the interval
ticker has elapsed, the poll returns `Ready` (it does still spawn zero
additional workers). -/
theorem highlight_poll_ready_while_worker_outstanding :
    hsRunning.handle = some HandleState.running ∧
      (HighlightStream.pollNext hsRunning (Except.ok statusPlaying) true).2.1.isReady
        = true ∧
      (HighlightStream.pollNext hsRunning (Except.ok statusPlaying) true).2.2 = 0 :=
  ⟨rfl, rfl, rfl⟩

/-- C2 (amended): at most one worker task is outstanding per bridge: a poll
that occurs while a previously spawned worker has not completed spawns zero
additional workers; `MpdStream` moreover returns `Pending` in that case,
while a `HighlightStream` poll's readiness is decided by its interval ticker
(when no staleness is pending, ready exactly when the ticker fired). -/
theorem bridge_poll_dedup :
    (∀ (s : HighlightState) (st : Except String MpdStatus) (tick : Bool),
        s.handle = some HandleState.running →
        (HighlightStream.pollNext s st tick).2.2 = 0) ∧
      (∀ (s : HighlightState) (st : Except String MpdStatus) (tick : Bool),
        s.handle = some HandleState.running → s.stale = false →
        (HighlightStream.pollNext s st tick).2.1 = intervalPoll tick) ∧
      MpdStream.pollNext (some HandleState.running)
        = (some HandleState.running, Poll.pending, 0) := by
  refine ⟨?_, ?_, rfl⟩
  · intro s st tick h
    unfold HighlightStream.pollNext
    simp only [h, reduceCtorEq, if_false]
    split
    · cases st with
      | error e => rfl
      | ok stv =>
        dsimp only
        split
        · split
          · split
            · rfl
            · rfl
          · rfl
        · rfl
    · rfl
  · intro s st tick h hstale
    unfold HighlightStream.pollNext
    simp only [h, reduceCtorEq, if_false, hstale]

/-- Witness for `bridge_poll_dedup`: at the concrete outstanding-worker state
`hsRunning`, the `HighlightStream` poll spawns zero workers and its result is
the ticker's. -/
theorem bridge_poll_dedup_witness :
    (HighlightStream.pollNext hsRunning (Except.ok statusPlaying) false).2.2 = 0 ∧
      (HighlightStream.pollNext hsRunning (Except.ok statusPlaying) false).2.1
        = intervalPoll false :=
  ⟨bridge_poll_dedup.1 hsRunning (Except.ok statusPlaying) false rfl,
    bridge_poll_dedup.2.1 hsRunning (Except.ok statusPlaying) false rfl rfl⟩

/-- C5: when `Mpd::tick` runs with the progress bar enabled, both `status()`
queries succeeding with elapsed and duration known, and the two `Instant::now()`
reads of the tick coinciding (`delta = 0`), the tick emits exactly two frames
— elapsed part then remaining part — split at character offset
`round(elapsed / track_length * character_count)`, and the two frames' text
character counts sum exactly to the rendered string's character count. -/
theorem mpd_tick_progress_split (m : MpdState) (s1 s2 : MpdStatus)
    (text : List Char) (delta : ℚ) (e L : Nat)
    (hpb : m.progress_bar = true) (he : s1.elapsed = some e)
    (hd : s2.duration = some L) (hdelta : delta = 0) :
    (Mpd.tick m (Except.ok s1) (Except.ok s2) (some text) delta).2 =
      Except.ok
        [ { attr := (m.attr.strip_right_padding).with_bg (some Color.red),
            text := text.take ((round (asSecs e / asSecs L * (text.length : ℚ))).toNat),
            stretch := false, markup := false },
          { attr := m.attr.strip_left_padding,
            text := text.drop ((round (asSecs e / asSecs L * (text.length : ℚ))).toNat),
            stretch := false, markup := false } ] ∧
      (text.take ((round (asSecs e / asSecs L * (text.length : ℚ))).toNat)).length
        + (text.drop ((round (asSecs e / asSecs L * (text.length : ℚ))).toNat)).length
        = text.length := by
  subst hdelta
  refine ⟨?_, ?_⟩
  · unfold Mpd.tick
    simp [he, hd, hpb]
  · rw [← List.length_append, List.take_append_drop]

/-- Witness for `mpd_tick_progress_split`: track length 200 s, 20 rendered
characters, elapsed 100 s gives split offset round(100/200·20) = 10, and the
two frames' lengths sum to 20. -/
theorem mpd_tick_progress_split_witness :
    (round (asSecs 100000000000 / asSecs 200000000000 * (textW.length : ℚ))).toNat = 10 ∧
      ((Mpd.tick mpdW (Except.ok statusElapsedW) (Except.ok statusDurationW)
          (some textW) 0).2 =
        Except.ok
          [ { attr := (mpdW.attr.strip_right_padding).with_bg (some Color.red),
              text := textW.take ((round (asSecs 100000000000 / asSecs 200000000000
                * (textW.length : ℚ))).toNat),
              stretch := false, markup := false },
            { attr := mpdW.attr.strip_left_padding,
              text := textW.drop ((round (asSecs 100000000000 / asSecs 200000000000
                * (textW.length : ℚ))).toNat),
              stretch := false, markup := false } ] ∧
        (textW.take ((round (asSecs 100000000000 / asSecs 200000000000
            * (textW.length : ℚ))).toNat)).length
          + (textW.drop ((round (asSecs 100000000000 / asSecs 200000000000
            * (textW.length : ℚ))).toNat)).length
          = textW.length) :=
  ⟨by
      have h20 : textW.length = 20 := rfl
      rw [h20]
      have h10 : asSecs 100000000000 / asSecs 200000000000 * ((20 : Nat) : ℚ) = 10 := by
        norm_num [asSecs]
      rw [h10]
      norm_num
      rfl,
    mpd_tick_progress_split mpdW statusElapsedW statusDurationW textW 0
      100000000000 200000000000 rfl rfl rfl rfl⟩

/-- C6 counterexample: a stale poll whose `status()` reports both elapsed and
duration does not reprogram the interval when the shared rendered string is
empty: the old cadence (7 ns) is kept, not `song_length / character_count`. -/
theorem highlight_resync_skips_empty_string :
    (HighlightStream.pollNext hsEmptyString (Except.ok statusPlaying) false).1.intervalDur
        = 7 ∧
      (HighlightStream.pollNext hsEmptyString (Except.ok statusPlaying) false).1.intervalDur
        ≠ statusPlaying.duration.getD 0 / hsEmptyString.lastStringLen := by
  refine ⟨rfl, ?_⟩
  decide

/-- C6 (amended): on every stale poll with a successful status query, the
stream clears the flag and re-reads elapsed/duration; it reprograms the
ticker interval to exactly `song_length / rendered_character_count` (floor
division on nanoseconds) precisely when both values are available, the
rendered string is nonempty and its count fits `u32`; otherwise the last
cadence is kept. -/
theorem highlight_resync_behavior (s : HighlightState) (st : MpdStatus)
    (tick : Bool) (hs : s.stale = true) :
    ((HighlightStream.pollNext s (Except.ok st) tick).1.stale = false) ∧
      ((HighlightStream.pollNext s (Except.ok st) tick).1.songLength = st.duration) ∧
      ((HighlightStream.pollNext s (Except.ok st) tick).1.songElapsed = st.elapsed) ∧
      ((HighlightStream.pollNext s (Except.ok st) tick).1.intervalDur =
        if st.duration.isSome && st.elapsed.isSome
            && decide (0 < s.lastStringLen) && decide (s.lastStringLen < 2 ^ 32)
          then st.duration.getD 0 / s.lastStringLen
          else s.intervalDur) ∧
      ((HighlightStream.pollNext s (Except.ok st) tick).1.lastStringLen
        = s.lastStringLen) := by
  obtain ⟨len, idur, sLen, sEla, hnd, stl⟩ := s
  obtain ⟨ela, dur⟩ := st
  replace hs : stl = true := hs
  subst hs
  cases hnd <;> cases ela <;> cases dur <;>
    by_cases h32 : len < 4294967296 <;> by_cases h0 : 0 < len <;>
    simp [HighlightStream.pollNext, h32, h0]

/-- Witness for `highlight_resync_behavior`: resyncing the stale state
`hsStale` (20 rendered characters) against a 200 s track reprograms the
interval to 10 s. -/
theorem highlight_resync_behavior_witness :
    (HighlightStream.pollNext hsStale (Except.ok statusPlaying) false).1.intervalDur
        = 10000000000 ∧
      ((HighlightStream.pollNext hsStale (Except.ok statusPlaying) false).1.stale
          = false) ∧
      ((HighlightStream.pollNext hsStale (Except.ok statusPlaying) false).1.songLength
          = statusPlaying.duration) :=
  ⟨by decide, (highlight_resync_behavior hsStale statusPlaying false rfl).1,
    (highlight_resync_behavior hsStale statusPlaying false rfl).2.1⟩

/-- C7: an error item does not close a widget stream.  For both the inotify
widget stream (`once(tick) ++ events.map(tick)`) and the mapped MPD widget
stream, if the tick fails on its first call and succeeds on its second while
triggers keep arriving, the stream yields `[Err, Ok(batch)]` and every later
yield index still produces an item (the stream never terminates). -/
theorem widget_stream_error_not_terminal
    (ticks : Nat → Except String (List Text)) (events : Nat → Option Unit)
    (e : String) (b : List Text)
    (h0 : ticks 0 = Except.error e) (h1 : ticks 1 = Except.ok b)
    (hev : ∀ n, events n = some ()) :
    inotifyStream ticks events 0 = some (Except.error e) ∧
      inotifyStream ticks events 1 = some (Except.ok b) ∧
      (∀ n, (inotifyStream ticks events n).isSome = true) ∧
      mappedWidgetStream ticks events 0 = some (Except.error e) ∧
      mappedWidgetStream ticks events 1 = some (Except.ok b) ∧
      (∀ n, (mappedWidgetStream ticks events n).isSome = true) := by
  refine ⟨?_, ?_, ?_, ?_, ?_, ?_⟩
  · simp [inotifyStream, h0]
  · simp [inotifyStream, hev 0, h1]
  · intro n
    cases n with
    | zero => simp [inotifyStream]
    | succ k => simp [inotifyStream, hev k]
  · simp [mappedWidgetStream, hev 0, h0]
  · simp [mappedWidgetStream, hev 1, h1]
  · intro n
    simp [mappedWidgetStream, hev n]

/-- Witness for `widget_stream_error_not_terminal`: the fixture tick fails
once with "boom" then succeeds; both stream models yield the error, then the
batch, and are still alive at yield index 5. -/
theorem widget_stream_error_not_terminal_witness :
    inotifyStream ticksW eventsW 0 = some (Except.error "boom") ∧
      inotifyStream ticksW eventsW 1 = some (Except.ok [frameW]) ∧
      (inotifyStream ticksW eventsW 5).isSome = true ∧
      mappedWidgetStream ticksW eventsW 0 = some (Except.error "boom") ∧
      mappedWidgetStream ticksW eventsW 1 = some (Except.ok [frameW]) ∧
      (mappedWidgetStream ticksW eventsW 5).isSome = true := by
  have h := widget_stream_error_not_terminal ticksW eventsW "boom" [frameW]
    rfl rfl (fun n => rfl)
  exact ⟨h.1, h.2.1, h.2.2.1 5, h.2.2.2.1, h.2.2.2.2.1, h.2.2.2.2.2 5⟩

/-- C8: in the `HighlightStream` worker closure, whenever the lock on the
stale flag is acquired (it fails only under mutex poisoning), the write
setting the flag occurs strictly before the single `waker.wake()` call, so
the flag already reads true when the wake happens: running the actions
strictly before the wake from any initial flag value ends with the flag set. -/
theorem stale_write_before_wake (lockOk : Bool) (h : lockOk = true) :
    (highlightWorkerTrace lockOk).indexOf WorkerAction.setStale
        < (highlightWorkerTrace lockOk).indexOf WorkerAction.wake ∧
      (highlightWorkerTrace lockOk).count WorkerAction.wake = 1 ∧
      runStaleWrites ((highlightWorkerTrace lockOk).takeWhile
        (fun a => a != WorkerAction.wake)) false = true := by
  subst h
  decide

/-- Witness for `stale_write_before_wake` at `lockOk = true`. -/
theorem stale_write_before_wake_witness :
    (highlightWorkerTrace true).indexOf WorkerAction.setStale
        < (highlightWorkerTrace true).indexOf WorkerAction.wake ∧
      (highlightWorkerTrace true).count WorkerAction.wake = 1 ∧
      runStaleWrites ((highlightWorkerTrace true).takeWhile
        (fun a => a != WorkerAction.wake)) false = true :=
  stale_write_before_wake true rfl

/-- C10: `Mpd::new` fails whenever `progress_bar` is false (the
`then(..).ok_or(..)??` chain turns the `None` into an error even when every
connection succeeds); it succeeds exactly when `progress_bar` is true and
all three `Client::connect` attempts succeed, and a successfully constructed
widget always has `highlight_conn = Some(..)`. -/
theorem mpd_new_requires_progress_bar :
    (∀ c1 c2 c3 : Except String Unit, (Mpd.new c1 c2 c3 false).isOk = false) ∧
      (∀ (c1 c2 c3 : Except String Unit) (pb : Bool),
        (Mpd.new c1 c2 c3 pb).isOk = true ↔
          (pb = true ∧ c1.isOk = true ∧ c2.isOk = true ∧ c3.isOk = true)) ∧
      (∀ (c1 c2 c3 : Except String Unit) (pb : Bool) (r : MpdNew),
        Mpd.new c1 c2 c3 pb = Except.ok r →
          r.highlight_conn.isSome = true ∧ r.progress_bar = pb) := by
  refine ⟨?_, ?_, ?_⟩
  · intro c1 c2 c3
    cases c1 with
    | error ea => rfl
    | ok ua =>
      cases c2 with
      | error eb => rfl
      | ok ub => rfl
  · intro c1 c2 c3 pb
    obtain ⟨ea⟩ | ⟨ua⟩ := c1 <;> obtain ⟨eb⟩ | ⟨ub⟩ := c2 <;>
      obtain ⟨ec⟩ | ⟨uc⟩ := c3 <;> cases pb <;>
      simp [Mpd.new, Except.isOk, Except.toBool, Bind.bind, Except.bind]
  · intro c1 c2 c3 pb r hr
    obtain ⟨ea⟩ | ⟨ua⟩ := c1 <;> obtain ⟨eb⟩ | ⟨ub⟩ := c2 <;>
      obtain ⟨ec⟩ | ⟨uc⟩ := c3 <;> cases pb <;>
      simp [Mpd.new, Bind.bind, Except.bind] at hr
    simp [← hr]

/-- Witness for `mpd_new_requires_progress_bar`: with all three connections
succeeding, construction fails with `progress_bar = false`, succeeds with
`progress_bar = true`, and the constructed value's highlight connection is
present. -/
theorem mpd_new_requires_progress_bar_witness :
    (Mpd.new (Except.ok ()) (Except.ok ()) (Except.ok ()) false).isOk = false ∧
      (Mpd.new (Except.ok ()) (Except.ok ()) (Except.ok ()) true).isOk = true ∧
      (({ highlight_conn := some (), progress_bar := true } : MpdNew).highlight_conn.isSome
        = true) :=
  ⟨mpd_new_requires_progress_bar.1 (Except.ok ()) (Except.ok ()) (Except.ok ()),
    (mpd_new_requires_progress_bar.2.1 (Except.ok ()) (Except.ok ()) (Except.ok ())
      true).mpr ⟨rfl, rfl, rfl, rfl⟩,
    (mpd_new_requires_progress_bar.2.2 (Except.ok ()) (Except.ok ()) (Except.ok ())
      true { highlight_conn := some (), progress_bar := true } rfl).1⟩
